import Mathlib

/-!
Verification of the per-room chat actor and its overload-protection layer
(src/room.ts, src/overloadProtection.ts), shallowly embedded in Lean.

Timestamps are Int (JS epoch milliseconds).  JS Maps are embedded as
association lists with unique keys; Map.set replaces the first matching
entry or appends, Map.delete removes the entry.  WebSocket sends and
console logging have no effect on actor state and are modelled as
identities; crypto.randomUUID is modelled as the opaque constant "".
-/

namespace DOChat


/-- Map.get: first entry with the given key. -/
def alGet {α : Type} (m : List (String × α)) (k : String) : Option α :=
  match m with
  | [] => none
  | (k', v) :: rest => if k' = k then some v else alGet rest k

/-- Map.set: replace the first entry with the key, else append. -/
def alSet {α : Type} (m : List (String × α)) (k : String) (v : α) : List (String × α) :=
  match m with
  | [] => [(k, v)]
  | (k', v') :: rest => if k' = k then (k, v) :: rest else (k', v') :: alSet rest k v

/-- Map.delete (keys are unique, so removing every match is equivalent). -/
def alErase {α : Type} (m : List (String × α)) (k : String) : List (String × α) :=
  m.filter (fun p => ¬ p.1 = k)

/-! ## CircuitBreaker (overloadProtection.ts, class CircuitBreaker)

For the standalone circuit-breaker claims the wrapped async operation is
abstracted by its only observable: whether it resolves or rejects. -/

inductive CBStatus where
  | closed
  | opn
  | halfOpen
deriving DecidableEq, Repr

structure CBState where
  failures : Nat
  lastFailureTime : Int
  status : CBStatus
deriving DecidableEq, Repr

/-- Outcome of CircuitBreaker.execute: rejected fast while OPEN, or the
operation was invoked and completed with the given success flag. -/
inductive CBOutcome where
  | rejectedOpen
  | completed (ok : Bool)
deriving DecidableEq, Repr

/-- The try/catch body of execute: onSuccess / onFailure. -/
def cbRunFlag (threshold : Nat) (s : CBState) (now : Int) (ok : Bool) : CBState × CBOutcome :=
  if ok then
    ({ s with failures := 0, status := .closed }, .completed true)
  else
    let f := s.failures + 1
    ({ failures := f, lastFailureTime := now,
       status := if f ≥ threshold then .opn else s.status }, .completed false)

/-- CircuitBreaker.execute with the operation abstracted to a success flag. -/
def cbExecFlag (threshold : Nat) (recovery : Int) (s : CBState) (now : Int) (ok : Bool) :
    CBState × CBOutcome :=
  if s.status = .opn then
    if now - s.lastFailureTime > recovery then
      cbRunFlag threshold { s with status := .halfOpen } now ok
    else
      (s, .rejectedOpen)
  else
    cbRunFlag threshold s now ok

/-! ## RateLimiter (overloadProtection.ts, class RateLimiter) -/

/-- RateLimiter.isAllowed; returns the updated requests map and the verdict. -/
def rlIsAllowed (maxRequests : Nat) (windowMs : Int) (m : List (String × List Int))
    (identifier : String) (now : Int) : List (String × List Int) × Bool :=
  let windowStart := now - windowMs
  let requestTimes := (alGet m identifier).getD []
  let validRequests := requestTimes.filter (fun time => time > windowStart)
  if validRequests.length ≥ maxRequests then
    (m, false)
  else
    (alSet m identifier (validRequests ++ [now]), true)

/-! ## ConnectionMonitor and OverloadProtectionManager state -/

structure CMState where
  connectionCount : Nat
  requestCount : Nat
  lastRequestTime : Int
deriving DecidableEq, Repr

/-- ConnectionMonitor.isOverloaded (maxConnections = 500). -/
def cmIsOverloaded (cm : CMState) : Bool :=
  cm.connectionCount > 500

/-- Per-room protection state: breaker (threshold 10, recovery 60000ms),
limiter (200 requests / 60000ms), monitor, shutdown flag. -/
structure OPMState where
  cb : CBState
  rl : List (String × List Int)
  cm : CMState
  isShuttingDown : Bool
deriving DecidableEq, Repr

def opmInitial : OPMState :=
  { cb := { failures := 0, lastFailureTime := 0, status := .closed }
    rl := []
    cm := { connectionCount := 0, requestCount := 0, lastRequestTime := 0 }
    isShuttingDown := false }

/-! ## Room data model (types.ts) -/

inductive MsgType where
  | message
  | join
  | leave
  | typing
  | presence
  | userList
deriving DecidableEq, Repr

structure Message where
  id : String
  roomId : String
  userId : String
  username : String
  content : String
  timestamp : Int
  mtype : MsgType
deriving DecidableEq, Repr

inductive UStatus where
  | online
  | away
  | offline
deriving DecidableEq, Repr

/-- User; typingTimeout (a process-local timer handle) is modelled as the
absolute time at which the pending auto-stop callback fires. -/
structure User where
  id : String
  username : String
  connectedAt : Int
  lastSeen : Int
  status : UStatus
  isTyping : Bool
  typingDeadline : Option Int
deriving DecidableEq, Repr

/-- WebSocketSession; the websocket handle itself is transport state, not
room state. -/
structure Session where
  userId : String
  username : String
  roomId : String
  lastPing : Int
  connectedAt : Int
deriving DecidableEq, Repr

/-- Durable storage contents for one room, plus the storage alarm. -/
structure StorageState where
  roomData : Option (String × Nat × Int)
  messages : List Message
  users : List (String × User)
  alarm : Option Int
deriving DecidableEq, Repr

/-- Room actor state.  hibernationDeadline models the pending 5-minute
setTimeout of resetHibernationTimer (absolute fire time, none if unarmed). -/
structure RoomState where
  roomId : String
  sessions : List (String × Session)
  users : List (String × User)
  messages : List Message
  maxCapacity : Nat
  lastActivity : Int
  isHibernating : Bool
  typingUsers : List String
  messageRateLimits : List (String × List Int)
  hibernationDeadline : Option Int
  prot : OPMState
  storage : StorageState
deriving DecidableEq, Repr

/-- State of a Room as constructed (before any request), at time t0. -/
def initialRoom (t0 : Int) : RoomState :=
  { roomId := ""
    sessions := []
    users := []
    messages := []
    maxCapacity := 100
    lastActivity := t0
    isHibernating := false
    typingUsers := []
    messageRateLimits := []
    hibernationDeadline := none
    prot := opmInitial
    storage := { roomData := none, messages := [], users := [], alarm := none } }

deriving instance DecidableEq for Except

/-- Thrown errors surfaced by the protection layer and the room operations. -/
inductive ChatError where
  | serviceShuttingDown
  | rateLimitExceeded
  | tooManyConnections
  | circuitOpen
  | roomAtCapacity
  | messageTooLarge
  | parseError
  | inRoomRateLimit
deriving DecidableEq, Repr

abbrev RoomOp := RoomState → RoomState × Except ChatError Unit

/-! ## Persistence helpers of Room (best-effort storage writes) -/

def saveRoomData (s : RoomState) : RoomState :=
  { s with storage := { s.storage with
      roomData := some (s.roomId, s.maxCapacity, s.lastActivity) } }

/-- saveMessages: persist the last 100 messages. -/
def saveMessages (s : RoomState) : RoomState :=
  { s with storage := { s.storage with
      messages := s.messages.drop (s.messages.length - 100) } }

def saveUsers (s : RoomState) : RoomState :=
  { s with storage := { s.storage with users := s.users } }

/-! ## Room timers -/

/-- resetHibernationTimer: (re)arm the 5-minute inactivity timeout. -/
def resetHibernationTimer (s : RoomState) (now : Int) : RoomState :=
  { s with hibernationDeadline := some (now + 5 * 60 * 1000) }

/-- updateActivity: refresh lastActivity, persist metadata, re-arm timer. -/
def updateActivity (s : RoomState) (now : Int) : RoomState :=
  resetHibernationTimer (saveRoomData { s with lastActivity := now }) now

/-! ## OverloadProtectionManager.executeWithProtection

The Room constructs its manager with CircuitBreaker(10, 60000) and
RateLimiter(200, 60000).  The guarded operation acts on the room state and
either returns or throws a ChatError. -/

/-- The try/catch of CircuitBreaker.execute around a room operation:
onSuccess resets the failure count and closes, onFailure counts the failure
and opens at the threshold of 10. -/
def roomCbRun (s : RoomState) (now : Int) (op : RoomOp) : RoomState × Except ChatError Unit :=
  match op s with
  | (s', Except.ok u) =>
      ({ s' with prot := { s'.prot with cb :=
          { s'.prot.cb with failures := 0, status := .closed } } }, .ok u)
  | (s', Except.error e) =>
      let f := s'.prot.cb.failures + 1
      ({ s' with prot := { s'.prot with cb :=
          { failures := f, lastFailureTime := now,
            status := if f ≥ 10 then .opn else s'.prot.cb.status } } }, .error e)

/-- CircuitBreaker.execute for room operations (threshold 10, recovery 60000). -/
def roomCbExecute (s : RoomState) (now : Int) (op : RoomOp) : RoomState × Except ChatError Unit :=
  if s.prot.cb.status = .opn then
    if now - s.prot.cb.lastFailureTime > 60000 then
      roomCbRun { s with prot := { s.prot with cb :=
        { s.prot.cb with status := .halfOpen } } } now op
    else
      (s, .error .circuitOpen)
  else
    roomCbRun s now op

/-- OverloadProtectionManager.executeWithProtection: shutdown check, rate
limiter, connection monitor, request count, then the circuit breaker. -/
def executeWithProtection (s : RoomState) (identifier : String) (now : Int) (op : RoomOp) :
    RoomState × Except ChatError Unit :=
  if s.prot.isShuttingDown = true then
    (s, .error .serviceShuttingDown)
  else
    let rlRes := rlIsAllowed 200 60000 s.prot.rl identifier now
    let s1 := { s with prot := { s.prot with rl := rlRes.1 } }
    if rlRes.2 = false then
      (s1, .error .rateLimitExceeded)
    else if cmIsOverloaded s1.prot.cm then
      (s1, .error .tooManyConnections)
    else
      let s2 := { s1 with prot := { s1.prot with cm := { s1.prot.cm with
        requestCount := s1.prot.cm.requestCount + 1, lastRequestTime := now } } }
      roomCbExecute s2 now op

/-! ## Presence and typing handlers (room.ts) -/

/-- updateUserActivity: refresh lastSeen; force-transition to online (the
presence broadcast it triggers is a transport send). -/
def updateUserActivity (s : RoomState) (userId : String) (now : Int) : RoomState :=
  match alGet s.users userId with
  | none => s
  | some user =>
      let user := { user with lastSeen := now }
      if user.status ≠ .online then
        { s with users := alSet s.users userId { user with status := .online } }
      else
        { s with users := alSet s.users userId user }

/-- isMessageRateLimited: in-room sliding window, 20 messages / 60000ms;
records now when not limited. -/
def isMessageRateLimited (s : RoomState) (userId : String) (now : Int) : RoomState × Bool :=
  let userMessages := (alGet s.messageRateLimits userId).getD []
  let recentMessages := userMessages.filter (fun timestamp => now - timestamp < 60000)
  if recentMessages.length ≥ 20 then
    (s, true)
  else
    ({ s with messageRateLimits := alSet s.messageRateLimits userId (recentMessages ++ [now]) },
     false)

/-- handleTypingStart: no-op unless the user exists and is not already
typing; otherwise mark typing and arm the 3-second auto-stop timeout. -/
def handleTypingStart (s : RoomState) (userId : String) (now : Int) : RoomState :=
  match alGet s.users userId with
  | none => s
  | some user =>
      if user.isTyping then
        s
      else
        let user := { user with isTyping := true, typingDeadline := some (now + 3000) }
        { s with users := alSet s.users userId user
               , typingUsers :=
                   if userId ∈ s.typingUsers then s.typingUsers else s.typingUsers ++ [userId] }

/-- handleTypingStop: no-op unless the user exists and is typing; otherwise
clear the flag, the pending timeout and the typing set. -/
def handleTypingStop (s : RoomState) (userId : String) : RoomState :=
  match alGet s.users userId with
  | none => s
  | some user =>
      if user.isTyping = false then
        s
      else
        let user := { user with isTyping := false, typingDeadline := none }
        { s with users := alSet s.users userId user
               , typingUsers := s.typingUsers.erase userId }

/-- New status computed by updateUserPresence for one user
(awayThreshold = 5 minutes). -/
def presenceNewStatus (s : RoomState) (now : Int) (userId : String) (user : User) : UStatus :=
  if (alGet s.sessions userId).isSome then
    if now - user.lastSeen > 5 * 60 * 1000 then .away else .online
  else
    .offline

/-- Does the presence pass force-clear this user's typing state? -/
def presenceClearsTyping (s : RoomState) (now : Int) (userId : String) (user : User) : Bool :=
  presenceNewStatus s now userId user ≠ user.status
    ∧ presenceNewStatus s now userId user ≠ .online ∧ user.isTyping

/-- One user's record after the presence pass. -/
def presenceUpdUser (s : RoomState) (now : Int) (userId : String) (user : User) : User :=
  let ns := presenceNewStatus s now userId user
  if user.status = ns then user
  else if ns ≠ .online ∧ user.isTyping then
    { user with status := ns, isTyping := false, typingDeadline := none }
  else
    { user with status := ns }

/-- updateUserPresence (the 30-second presence tick body): recompute every
user's status, clear typing on demotion, persist when anything changed. -/
def updateUserPresence (s : RoomState) (now : Int) : RoomState :=
  let changed := s.users.any (fun p => presenceNewStatus s now p.1 p.2 ≠ p.2.status)
  let s' := { s with
      users := s.users.map (fun p => (p.1, presenceUpdUser s now p.1 p.2))
      typingUsers := s.typingUsers.filter (fun u =>
        match alGet s.users u with
        | some usr => ¬ presenceClearsTyping s now u usr
        | none => true) }
  if changed then saveUsers s' else s'

/-! ## Room operations -/

/-- The guarded body of handleWebSocket: capacity check, wake from
hibernation, register Session and User, persist, broadcast, update
activity.  Broadcast and recent-message sends are transport effects. -/
def connectOpBody (userId username roomId : String) (now : Int) : RoomOp := fun s =>
  let s := { s with roomId := roomId }
  if s.sessions.length ≥ s.maxCapacity then
    (s, .error .roomAtCapacity)
  else
    let s := if s.isHibernating then { s with isHibernating := false } else s
    let sess : Session :=
      { userId := userId, username := username, roomId := roomId,
        lastPing := now, connectedAt := now }
    let s := { s with sessions := alSet s.sessions userId sess }
    let s := { s with prot := { s.prot with cm :=
      { s.prot.cm with connectionCount := s.sessions.length } } }
    let user : User :=
      { id := userId, username := username, connectedAt := now, lastSeen := now,
        status := .online, isTyping := false, typingDeadline := none }
    let s := { s with users := alSet s.users userId user }
    let s := saveUsers s
    let s := updateActivity s now
    (s, .ok ())

/-- handleWebSocket with valid parameters, gated by executeWithProtection. -/
def handleWebSocket (s : RoomState) (userId username roomId : String) (now : Int) :
    RoomState × Except ChatError Unit :=
  executeWithProtection s userId now (connectOpBody userId username roomId now)

/-- An inbound payload after JSON.parse, decoded at the boundary. -/
inductive Payload where
  | ping
  | chatMessage (content : String)
  | typing (isTyping : Bool)
  | requestUserList
  | unknownTag
  | malformed
deriving DecidableEq, Repr

/-- Push one accepted chat message onto the in-memory history, evicting
past 100 entries (room.ts lines 466-470). -/
def appendMessageCapped (h : List Message) (m : Message) : List Message :=
  let h' := h ++ [m]
  if h'.length > 100 then h'.drop (h'.length - 100) else h'

/-- The guarded body of handleMessage: size limit, parse, session lookup,
activity refresh, then dispatch on the payload type. -/
def messageOpBody (userId : String) (rawSize : Nat) (p : Payload) (now : Int) : RoomOp := fun s =>
  if rawSize > 10240 then
    (s, .error .messageTooLarge)
  else if p = .malformed then
    (s, .error .parseError)
  else
    match alGet s.sessions userId with
    | none => (s, .ok ())
    | some sess =>
        let s := updateUserActivity s userId now
        match p with
        | .ping =>
            ({ s with sessions := alSet s.sessions userId { sess with lastPing := now } }, .ok ())
        | .chatMessage content =>
            let rlr := isMessageRateLimited s userId now
            if rlr.2 then
              (rlr.1, .error .inRoomRateLimit)
            else
              let s := handleTypingStop rlr.1 userId
              let msg : Message :=
                { id := "", roomId := s.roomId, userId := userId, username := sess.username,
                  content := content, timestamp := now, mtype := .message }
              let s := { s with messages := appendMessageCapped s.messages msg }
              let s := if s.messages.length % 10 = 0 then saveMessages s else s
              let s := updateActivity s now
              (s, .ok ())
        | .typing b =>
            (if b then handleTypingStart s userId now else handleTypingStop s userId, .ok ())
        | .requestUserList => (s, .ok ())
        | .unknownTag => (s, .ok ())
        | .malformed => (s, .error .parseError)

/-- handleMessage, gated by executeWithProtection; the catch block only
sends an error reply to the originating connection. -/
def handleMessage (s : RoomState) (userId : String) (rawSize : Nat) (p : Payload) (now : Int) :
    RoomState × Except ChatError Unit :=
  executeWithProtection s userId now (messageOpBody userId rawSize p now)

/-- webSocketMessage (hibernation API): restore the Session and User from
the socket's metadata tags when absent, then handle the message. -/
def webSocketMessage (s : RoomState) (userId username roomId : String) (connAt : Int)
    (rawSize : Nat) (p : Payload) (now : Int) : RoomState × Except ChatError Unit :=
  let s :=
    if (alGet s.sessions userId).isSome then s
    else
      { s with
          sessions := alSet s.sessions userId
            { userId := userId, username := username, roomId := roomId,
              lastPing := now, connectedAt := connAt }
          users := alSet s.users userId
            { id := userId, username := username, connectedAt := connAt, lastSeen := now,
              status := .online, isTyping := false, typingDeadline := none } }
  handleMessage s userId rawSize p now

/-- handleDisconnect: drop the Session and the User, update the monitor,
persist, and arm the hibernation timer when the room empties. -/
def handleDisconnect (s : RoomState) (userId : String) (now : Int) : RoomState :=
  match alGet s.sessions userId with
  | none => s
  | some _ =>
      let s := { s with sessions := alErase s.sessions userId
                      , users := alErase s.users userId }
      let s := { s with prot := { s.prot with cm :=
        { s.prot.cm with connectionCount := s.sessions.length } } }
      let s := updateActivity s now
      let s := saveUsers s
      if s.sessions.length = 0 then resetHibernationTimer s now else s

/-- scheduleHibernation: flush state, arm the 24h wake alarm, set the flag
(only when the room is empty and not already hibernating). -/
def scheduleHibernation (s : RoomState) (now : Int) : RoomState :=
  if s.sessions.length = 0 ∧ s.isHibernating = false then
    let s := saveRoomData (saveUsers (saveMessages s))
    { s with storage := { s.storage with alarm := some (now + 24 * 60 * 60 * 1000) }
           , isHibernating := true }
  else s

/-- handleHibernation (POST /hibernate): hibernate only an empty room. -/
def handleHibernationReq (s : RoomState) (now : Int) : RoomState :=
  if s.sessions.length = 0 then scheduleHibernation s now else s

/-- alarm handler: trim history to 50, evict users connected more than
7 days ago, persist, reschedule in 24h. -/
def alarmRun (s : RoomState) (now : Int) : RoomState :=
  let s :=
    if s.messages.length > 50 then
      saveMessages { s with messages := s.messages.drop (s.messages.length - 50) }
    else s
  let s := { s with users := (s.users.filter
      (fun p => ¬ (now - p.2.connectedAt > 7 * 24 * 60 * 60 * 1000))) }
  let s := saveUsers s
  { s with storage := { s.storage with alarm := some (now + 24 * 60 * 60 * 1000) } }

/-! ## Event-level semantics

Every externally triggered entry point of the actor, including timer
callbacks, re-enters the room's serial queue as one event.  A one-shot
timer fires only while armed for exactly that instant. -/

inductive Ev where
  | connect (userId username roomId : String) (t : Int)
  | wsMsg (userId username roomId : String) (connAt : Int) (rawSize : Nat) (p : Payload) (t : Int)
  | disconnect (userId : String) (t : Int)
  | hibernateReq (t : Int)
  | hibTimer (t : Int)
  | typingTimer (userId : String) (t : Int)
  | presenceTick (t : Int)
  | alarmFire (t : Int)

def step (s : RoomState) (e : Ev) : RoomState :=
  match e with
  | .connect u uname rid t => (handleWebSocket s u uname rid t).1
  | .wsMsg u uname rid ca sz p t => (webSocketMessage s u uname rid ca sz p t).1
  | .disconnect u t => handleDisconnect s u t
  | .hibernateReq t => handleHibernationReq s t
  | .hibTimer t =>
      if s.hibernationDeadline = some t then
        scheduleHibernation { s with hibernationDeadline := none } t
      else s
  | .typingTimer u t =>
      if ((alGet s.users u).bind (fun usr => usr.typingDeadline)) = some t then
        handleTypingStop s u
      else s
  | .presenceTick t => updateUserPresence s t
  | .alarmFire t =>
      if s.storage.alarm = some t then
        alarmRun { s with storage := { s.storage with alarm := none } } t
      else s

/-- A run of the actor from a starting state over an event sequence. -/
def runEvents (s : RoomState) (evs : List Ev) : RoomState :=
  evs.foldl step s

/-! ## C1: capacity invariant -/

/-- The capacity bound on a room state. -/
def CapOk (s : RoomState) : Prop := s.sessions.length ≤ s.maxCapacity

/-- Events of the connect/disconnect fragment. -/
def connDiscOnly : Ev → Bool := fun e =>
  match e with
  | .connect _ _ _ _ => true
  | .disconnect _ _ => true
  | _ => false

/-- Sample connect/disconnect trace for the capacity invariant. -/
def c1evs : List Ev :=
  [Ev.connect "a" "alice" "general" 0,
   Ev.connect "b" "bob" "general" 10,
   Ev.disconnect "a" 20]

/-- A room whose session map is exactly at capacity. -/
def c1FullState : RoomState :=
  { initialRoom 0 with
    maxCapacity := 2,
    sessions :=
      [("a", { userId := "a", username := "alice", roomId := "general",
               lastPing := 0, connectedAt := 0 }),
       ("b", { userId := "b", username := "bob", roomId := "general",
               lastPing := 10, connectedAt := 10 })] }

/-- A room of capacity 1 holding one session; input of the C2 analysis. -/
def c2State : RoomState :=
  { initialRoom 0 with
    maxCapacity := 1,
    sessions := [("u1", { userId := "u1", username := "alice", roomId := "r",
                          lastPing := 0, connectedAt := 0 })] }

/-- The C3 scenario for a breaker with threshold 3 and recovery r: three
consecutive failing executions from the fresh CLOSED state, then a call
within the recovery window at time t, then a call after it at time t'. -/
def cbScenario (r t1 t2 t3 t t' : Int) (ok : Bool) : Prop :=
  let s0 : CBState := { failures := 0, lastFailureTime := 0, status := .closed }
  let r1 := cbExecFlag 3 r s0 t1 false
  let r2 := cbExecFlag 3 r r1.1 t2 false
  let r3 := cbExecFlag 3 r r2.1 t3 false
  r1.2 = .completed false ∧ r1.1.status = .closed ∧
  r2.2 = .completed false ∧ r2.1.status = .closed ∧
  r3.2 = .completed false ∧
  r3.1 = { failures := 3, lastFailureTime := t3, status := .opn } ∧
  cbExecFlag 3 r r3.1 t ok = (r3.1, .rejectedOpen) ∧
  cbExecFlag 3 r r3.1 t' ok = cbRunFlag 3 { r3.1 with status := .halfOpen } t' ok ∧
  cbExecFlag 3 r r3.1 t' true =
    ({ failures := 0, lastFailureTime := t3, status := .closed }, .completed true)

/-- The C4 scenario for a limiter with cap 3 and window 1000ms: four calls
for X at t1..t4, a later call at t5, and any call for Y against any map. -/
def rlScenario (X Y : String) (t1 t2 t3 t4 t5 : Int)
    (m : List (String × List Int)) (l : List Int) : Prop :=
  let r1 := rlIsAllowed 3 1000 [] X t1
  let r2 := rlIsAllowed 3 1000 r1.1 X t2
  let r3 := rlIsAllowed 3 1000 r2.1 X t3
  let r4 := rlIsAllowed 3 1000 r3.1 X t4
  let r5 := rlIsAllowed 3 1000 r4.1 X t5
  r1.2 = true ∧ r2.2 = true ∧ r3.2 = true ∧
  r4.2 = false ∧ r4.1 = r3.1 ∧
  r5.2 = true ∧
  (rlIsAllowed 3 1000 (alSet m X l) Y t5).2 = (rlIsAllowed 3 1000 m Y t5).2 ∧
  alGet (rlIsAllowed 3 1000 (alSet m X l) Y t5).1 Y =
    alGet (rlIsAllowed 3 1000 m Y t5).1 Y

/-- The 150 concrete messages of the C5 witness. -/
def c5msgs : List Message :=
  (List.range 150).map (fun i =>
    { id := "", roomId := "r", userId := "u", username := "u",
      content := toString i, timestamp := 0, mtype := .message })

/-- C6 failing trace: a user connects and leaves, the 5-minute timer sends
the room into hibernation, then a message arrives on a restored socket. -/
def c6evs : List Ev :=
  [Ev.connect "u1" "alice" "general" 0,
   Ev.disconnect "u1" 1000,
   Ev.hibTimer 301000,
   Ev.wsMsg "u2" "bob" "general" 0 10 Payload.ping 400000]

/-- C7 trace: connect u, then disconnect u. -/
def c7evs : List Ev :=
  [Ev.connect "u" "nick" "r" 0, Ev.disconnect "u" 1000]

/-- State of the C7 room after the connect only. -/
def c7Connected : RoomState := runEvents (initialRoom 0) (c7evs.take 1)

def c8Now : Int := 800000000000

/-- C8 failing input: a room whose only user connected 8 days ago but was
active 1 second ago, with 60 messages in history. -/
def c8State : RoomState :=
  { initialRoom 0 with
    sessions := [("alice", { userId := "alice", username := "alice", roomId := "r",
                             lastPing := c8Now, connectedAt := c8Now - 8 * 24 * 60 * 60 * 1000 })],
    users := [("alice", { id := "alice", username := "alice",
                          connectedAt := c8Now - 8 * 24 * 60 * 60 * 1000,
                          lastSeen := c8Now - 1000, status := UStatus.online,
                          isTyping := false, typingDeadline := none })],
    messages := (List.range 60).map (fun i =>
      { id := "", roomId := "r", userId := "alice", username := "alice",
        content := toString i, timestamp := 0, mtype := MsgType.message }) }

/-- C9 trace: connect u, typing start at 0 and again at 2000 with no stop,
the armed auto-stop timer fires at 3000. -/
def c9evs : List Ev :=
  [Ev.connect "u" "nick" "r" 0,
   Ev.wsMsg "u" "nick" "r" 0 10 (Payload.typing true) 0,
   Ev.wsMsg "u" "nick" "r" 0 10 (Payload.typing true) 2000,
   Ev.typingTimer "u" 3000]

/-- Concrete inputs for the C10 witness. -/
def c10CapState : RoomState := { initialRoom 0 with maxCapacity := 0 }

def c10LimState : RoomState :=
  { initialRoom 0 with
    sessions := [("u", { userId := "u", username := "u", roomId := "r",
                         lastPing := 0, connectedAt := 0 })],
    users := [("u", { id := "u", username := "u", connectedAt := 0, lastSeen := 0,
                      status := UStatus.online, isTyping := false, typingDeadline := none })],
    messageRateLimits := [("u", List.replicate 20 0)] }

def c10OpenState : RoomState :=
  { initialRoom 0 with
    prot := { opmInitial with
              cb := { failures := 10, lastFailureTime := 0, status := CBStatus.opn } } }

/-- An operation that would wipe the history, used to exhibit that the open
breaker never invokes it. -/
def c10WipeOp : RoomOp := fun t => ({ t with messages := [] }, Except.ok ())

/-! ## Theorems -/

theorem alGet_alSet_self {α : Type} (m : List (String × α)) (k : String) (v : α) :
    alGet (alSet m k v) k = some v := by
  induction m with
  | nil => simp [alGet, alSet]
  | cons hd tl ih =>
    by_cases h : hd.1 = k
    · simp [alGet, alSet, h]
    · simp [alGet, alSet, h, ih]

theorem alGet_alSet_other {α : Type} (m : List (String × α)) (k k' : String) (v : α)
    (h : k' ≠ k) : alGet (alSet m k v) k' = alGet m k' := by
  have h1 : ¬ (k = k') := fun e => h e.symm
  induction m with
  | nil => simp [alGet, alSet, h1]
  | cons hd tl ih =>
    obtain ⟨a, b⟩ := hd
    by_cases hk : a = k
    · subst hk
      simp [alGet, alSet, h1]
    · by_cases hk2 : a = k'
      · simp [alGet, alSet, hk, hk2, h]
      · simp [alGet, alSet, hk, hk2, ih]

theorem length_alSet {α : Type} (m : List (String × α)) (k : String) (v : α) :
    (alSet m k v).length ≤ m.length + 1 := by
  induction m with
  | nil => simp [alSet]
  | cons hd tl ih =>
    by_cases h : hd.1 = k
    · simp [alSet, h]
    · simpa [alSet, h] using Nat.succ_le_succ ih

theorem length_alErase {α : Type} (m : List (String × α)) (k : String) :
    (alErase m k).length ≤ m.length :=
  List.length_filter_le _ m

theorem alGet_alErase_self {α : Type} (m : List (String × α)) (k : String) :
    alGet (alErase m k) k = none := by
  induction m with
  | nil => simp [alGet, alErase]
  | cons hd tl ih =>
    by_cases h : hd.1 = k
    · simpa [alErase, h] using ih
    · simpa [alErase, alGet, h] using ih

/-! ## Generic facts about the admission gate -/

/-- Any property insensitive to the protection sub-state and preserved by
the guarded operation is preserved by the breaker's run. -/
theorem roomCbRun_preserve (P : RoomState → Prop) (op : RoomOp) (now : Int)
    (hprot : ∀ t pr, P t → P { t with prot := pr })
    (hop : ∀ t, P t → P (op t).1)
    (t : RoomState) (hP : P t) : P (roomCbRun t now op).1 := by
  have h1 : P (op t).1 := hop t hP
  rcases hEq : op t with ⟨s', r⟩
  rw [hEq] at h1
  cases r with
  | ok u => simpa [roomCbRun, hEq] using hprot _ _ h1
  | error e => simpa [roomCbRun, hEq] using hprot _ _ h1

theorem roomCbExecute_preserve (P : RoomState → Prop) (op : RoomOp) (now : Int)
    (hprot : ∀ t pr, P t → P { t with prot := pr })
    (hop : ∀ t, P t → P (op t).1)
    (t : RoomState) (hP : P t) : P (roomCbExecute t now op).1 := by
  unfold roomCbExecute
  split
  · split
    · exact roomCbRun_preserve P op now hprot hop _ (hprot _ _ hP)
    · exact hP
  · exact roomCbRun_preserve P op now hprot hop _ hP

theorem executeWithProtection_preserve (P : RoomState → Prop) (op : RoomOp)
    (identifier : String) (now : Int)
    (hprot : ∀ t pr, P t → P { t with prot := pr })
    (hop : ∀ t, P t → P (op t).1)
    (s : RoomState) (hP : P s) : P (executeWithProtection s identifier now op).1 := by
  simp only [executeWithProtection]
  split
  · exact hP
  · split
    · exact hprot _ _ hP
    · split
      · exact hprot _ _ hP
      · exact roomCbExecute_preserve P op now hprot hop _ (hprot _ _ hP)

theorem capOk_prot (t : RoomState) (pr : OPMState) (h : CapOk t) :
    CapOk { t with prot := pr } := h

theorem connectOpBody_capOk (u uname rid : String) (now : Int) (t : RoomState)
    (h : CapOk t) : CapOk ((connectOpBody u uname rid now) t).1 := by
  simp only [connectOpBody]
  split
  · exact h
  · rename_i hlt
    simp only [CapOk, updateActivity, saveRoomData, saveUsers, resetHibernationTimer]
    split <;>
      exact le_trans (length_alSet _ _ _) (Nat.succ_le_of_lt (Nat.lt_of_not_le hlt))

theorem handleDisconnect_capOk (u : String) (now : Int) (t : RoomState)
    (h : CapOk t) : CapOk (handleDisconnect t u now) := by
  simp only [handleDisconnect]
  split
  · exact h
  · simp only [CapOk, updateActivity, saveRoomData, saveUsers, resetHibernationTimer]
    split <;> exact le_trans (length_alErase _ _) h

theorem step_capOk (s : RoomState) (e : Ev) (he : connDiscOnly e = true) (h : CapOk s) :
    CapOk (step s e) := by
  cases e with
  | connect u uname rid t =>
      exact executeWithProtection_preserve CapOk _ u t capOk_prot
        (connectOpBody_capOk u uname rid t) s h
  | disconnect u t => exact handleDisconnect_capOk u t s h
  | wsMsg u uname rid ca sz p t => exact absurd he (by simp [connDiscOnly])
  | hibernateReq t => exact absurd he (by simp [connDiscOnly])
  | hibTimer t => exact absurd he (by simp [connDiscOnly])
  | typingTimer u t => exact absurd he (by simp [connDiscOnly])
  | presenceTick t => exact absurd he (by simp [connDiscOnly])
  | alarmFire t => exact absurd he (by simp [connDiscOnly])

theorem runEvents_capOk (evs : List Ev) (s : RoomState)
    (hall : ∀ e ∈ evs, connDiscOnly e = true) (h : CapOk s) : CapOk (runEvents s evs) := by
  induction evs generalizing s with
  | nil => exact h
  | cons e rest ih =>
      exact ih (step s e) (fun x hx => hall x (List.mem_cons_of_mem _ hx))
        (step_capOk s e (hall e (List.mem_cons_self _ _)) h)

/-- Exact shape of the breaker's run when the operation throws. -/
theorem roomCbRun_error (t : RoomState) (now : Int) (op : RoomOp) (s' : RoomState)
    (e : ChatError) (hop : op t = (s', Except.error e)) :
    roomCbRun t now op =
      ({ s' with prot := { s'.prot with cb :=
          { failures := s'.prot.cb.failures + 1, lastFailureTime := now,
            status := if s'.prot.cb.failures + 1 ≥ 10 then .opn
                      else s'.prot.cb.status } } }, Except.error e) := by
  simp [roomCbRun, hop]

/-- The connect body at (or above) capacity throws before touching state. -/
theorem connectOpBody_at_capacity (u uname rid : String) (now : Int) (t : RoomState)
    (h : t.sessions.length ≥ t.maxCapacity) :
    connectOpBody u uname rid now t =
      ({ t with roomId := rid }, Except.error ChatError.roomAtCapacity) := by
  simp [connectOpBody, h]

/-- Breaker run of a connect body against a full room: no session added,
capacity error surfaced. -/
theorem roomCbRun_at_capacity (u uname rid : String) (now now2 : Int) (t : RoomState)
    (h : t.sessions.length ≥ t.maxCapacity) :
    (roomCbRun t now2 (connectOpBody u uname rid now)).1.sessions = t.sessions ∧
      (roomCbRun t now2 (connectOpBody u uname rid now)).2 =
        Except.error ChatError.roomAtCapacity := by
  rw [roomCbRun_error t now2 _ _ _ (connectOpBody_at_capacity u uname rid now t h)]
  exact ⟨rfl, rfl⟩

/-- A connect attempt against a full room rejects and never adds a session,
whatever the protection layer does. -/
theorem handleWebSocket_at_capacity (s : RoomState) (u uname rid : String) (now : Int)
    (hcap : s.sessions.length ≥ s.maxCapacity) :
    (handleWebSocket s u uname rid now).1.sessions = s.sessions ∧
      ∃ e, (handleWebSocket s u uname rid now).2 = Except.error e := by
  simp only [handleWebSocket, executeWithProtection]
  split
  · exact ⟨rfl, _, rfl⟩
  · split
    · exact ⟨rfl, _, rfl⟩
    · split
      · exact ⟨rfl, _, rfl⟩
      · simp only [roomCbExecute]
        split
        · split
          · refine ⟨(roomCbRun_at_capacity u uname rid now now _ ?_).1,
              _, (roomCbRun_at_capacity u uname rid now now _ ?_).2⟩ <;> exact hcap
          · exact ⟨rfl, _, rfl⟩
        · refine ⟨(roomCbRun_at_capacity u uname rid now now _ ?_).1,
            _, (roomCbRun_at_capacity u uname rid now now _ ?_).2⟩ <;> exact hcap

/-- When the gate admits the request, the rejection is the capacity error. -/
theorem handleWebSocket_at_capacity_admitted (s : RoomState) (u uname rid : String)
    (now : Int)
    (hcap : s.sessions.length ≥ s.maxCapacity)
    (hsd : s.prot.isShuttingDown = false)
    (hrl : (rlIsAllowed 200 60000 s.prot.rl u now).2 = true)
    (hcc : cmIsOverloaded s.prot.cm = false)
    (hcb : s.prot.cb.status = .opn → now - s.prot.cb.lastFailureTime > 60000) :
    (handleWebSocket s u uname rid now).2 = Except.error ChatError.roomAtCapacity := by
  simp only [handleWebSocket, executeWithProtection, roomCbExecute, hsd, hrl, hcc,
    Bool.false_eq_true, Bool.true_eq_false, if_false, ite_false]
  split
  · split
    · refine (roomCbRun_at_capacity u uname rid now now _ ?_).2
      exact hcap
    · rename_i hst hel
      exact absurd (hcb hst) hel
  · refine (roomCbRun_at_capacity u uname rid now now _ ?_).2
    exact hcap

/-- C1: for every sequence of connect and disconnect operations on a room,
starting from the empty room, the sessions map never exceeds maxCapacity;
and a connect attempted while the sessions map already holds maxCapacity
entries is rejected and adds no session, with the room-at-capacity error
whenever the protection gate admits the attempt. -/
theorem c1_capacity_invariant :
    (∀ (t0 : Int) (evs : List Ev), (∀ e ∈ evs, connDiscOnly e = true) →
        (runEvents (initialRoom t0) evs).sessions.length ≤
          (runEvents (initialRoom t0) evs).maxCapacity)
    ∧ (∀ (s : RoomState) (u uname rid : String) (now : Int),
        s.sessions.length = s.maxCapacity →
          (handleWebSocket s u uname rid now).1.sessions = s.sessions ∧
          (∃ e, (handleWebSocket s u uname rid now).2 = Except.error e) ∧
          (s.prot.isShuttingDown = false →
            (rlIsAllowed 200 60000 s.prot.rl u now).2 = true →
            cmIsOverloaded s.prot.cm = false →
            (s.prot.cb.status = .opn → now - s.prot.cb.lastFailureTime > 60000) →
            (handleWebSocket s u uname rid now).2 =
              Except.error ChatError.roomAtCapacity)) := by
  constructor
  · intro t0 evs hall
    exact runEvents_capOk evs _ hall (by simp [CapOk, initialRoom])
  · intro s u uname rid now hcap
    have hge : s.sessions.length ≥ s.maxCapacity := le_of_eq hcap.symm
    exact ⟨(handleWebSocket_at_capacity s u uname rid now hge).1,
      (handleWebSocket_at_capacity s u uname rid now hge).2,
      fun hsd hrl hcc hcb =>
        handleWebSocket_at_capacity_admitted s u uname rid now hge hsd hrl hcc hcb⟩

/-- Witness for C1 at a concrete trace and a concrete full room. -/
theorem c1_capacity_invariant_witness :
    (∀ e ∈ c1evs, connDiscOnly e = true) ∧
    ((runEvents (initialRoom 0) c1evs).sessions.length ≤
      (runEvents (initialRoom 0) c1evs).maxCapacity) ∧
    (c1FullState.sessions.length = c1FullState.maxCapacity) ∧
    ((handleWebSocket c1FullState "c" "carl" "general" 30).2 =
      Except.error ChatError.roomAtCapacity) :=
  ⟨by decide, c1_capacity_invariant.1 0 c1evs (by decide), by decide,
   (c1_capacity_invariant.2 c1FullState "c" "carl" "general" 30 (by decide)).2.2
     (by decide) (by decide) (by decide) (by decide)⟩

/-- When the limiter allows, it has recorded now for the identifier. -/
theorem rlIsAllowed_true_update (maxRequests : Nat) (windowMs : Int)
    (m : List (String × List Int)) (identifier : String) (now : Int)
    (h : (rlIsAllowed maxRequests windowMs m identifier now).2 = true) :
    (rlIsAllowed maxRequests windowMs m identifier now).1 =
      alSet m identifier
        ((((alGet m identifier).getD []).filter (fun time => time > now - windowMs)) ++ [now]) := by
  simp only [rlIsAllowed] at h ⊢
  split at h
  · simp at h
  · rename_i hcond
    rw [if_neg hcond]

/-- Exact result of the breaker run of a connect body against a full room. -/
theorem roomCbRun_at_capacity_eq (u uname rid : String) (now now2 : Int) (t : RoomState)
    (h : t.sessions.length ≥ t.maxCapacity) :
    roomCbRun t now2 (connectOpBody u uname rid now) =
      ({ t with
         roomId := rid,
         prot := { t.prot with cb :=
           { failures := t.prot.cb.failures + 1, lastFailureTime := now2,
             status := if t.prot.cb.failures + 1 ≥ 10 then .opn
                       else t.prot.cb.status } } },
       Except.error ChatError.roomAtCapacity) := by
  rw [roomCbRun_error t now2 _ _ _ (connectOpBody_at_capacity u uname rid now t h)]

/-- Full shape of a capacity rejection admitted past the gate with a closed
breaker: the limiter has recorded, the request counter stepped, and the
failure was counted by the breaker. -/
theorem handleWebSocket_at_capacity_closed (s : RoomState) (u uname rid : String)
    (now : Int)
    (hcap : s.sessions.length ≥ s.maxCapacity)
    (hsd : s.prot.isShuttingDown = false)
    (hrl : (rlIsAllowed 200 60000 s.prot.rl u now).2 = true)
    (hcc : cmIsOverloaded s.prot.cm = false)
    (hcb : s.prot.cb.status = CBStatus.closed) :
    handleWebSocket s u uname rid now =
      ({ s with
         roomId := rid,
         prot := { s.prot with
           rl := (rlIsAllowed 200 60000 s.prot.rl u now).1,
           cm := { s.prot.cm with
                   requestCount := s.prot.cm.requestCount + 1,
                   lastRequestTime := now },
           cb := { failures := s.prot.cb.failures + 1, lastFailureTime := now,
                   status := if s.prot.cb.failures + 1 ≥ 10 then CBStatus.opn
                             else CBStatus.closed } } },
       Except.error ChatError.roomAtCapacity) := by
  have h1 : ¬ (s.prot.cb.status = CBStatus.opn) := by simp [hcb]
  simp only [handleWebSocket, executeWithProtection, roomCbExecute, hsd, hrl, hcc, h1,
    Bool.false_eq_true, Bool.true_eq_false, if_false, ite_false, if_true, ite_true]
  refine (roomCbRun_at_capacity_eq u uname rid now now _ ?_).trans ?_
  · exact hcap
  · simp [hcb]

/-- C2 counterexample: a connect rejected for capacity nevertheless passes
through the protection layer first: the rate limiter records the timestamp,
the request counter is incremented, and the circuit breaker counts the
failure. -/
theorem c2_counterexample :
    (handleWebSocket c2State "u2" "bob" "r" 5).2 = Except.error ChatError.roomAtCapacity ∧
    alGet (handleWebSocket c2State "u2" "bob" "r" 5).1.prot.rl "u2" = some [5] ∧
    (handleWebSocket c2State "u2" "bob" "r" 5).1.prot.cm.requestCount =
      c2State.prot.cm.requestCount + 1 ∧
    (handleWebSocket c2State "u2" "bob" "r" 5).1.prot.cb.failures =
      c2State.prot.cb.failures + 1 := by
  decide

/-- C2 amended: a connect at capacity that the gate admits (no shutdown,
limiter allows, monitor not overloaded, breaker closed) is rejected with the
room-at-capacity error and adds no session, but only after the protection
layer runs: the limiter records now for the identifier, the request counter
is incremented, and the rejection is counted as a circuit-breaker failure. -/
theorem c2_amended_protection_consulted (s : RoomState) (u uname rid : String) (now : Int)
    (hcap : s.sessions.length ≥ s.maxCapacity)
    (hsd : s.prot.isShuttingDown = false)
    (hrl : (rlIsAllowed 200 60000 s.prot.rl u now).2 = true)
    (hcc : cmIsOverloaded s.prot.cm = false)
    (hcb : s.prot.cb.status = CBStatus.closed) :
    (handleWebSocket s u uname rid now).2 = Except.error ChatError.roomAtCapacity ∧
    (handleWebSocket s u uname rid now).1.sessions = s.sessions ∧
    alGet (handleWebSocket s u uname rid now).1.prot.rl u =
      some ((((alGet s.prot.rl u).getD []).filter (fun time => time > now - 60000)) ++ [now]) ∧
    (handleWebSocket s u uname rid now).1.prot.cm.requestCount =
      s.prot.cm.requestCount + 1 ∧
    (handleWebSocket s u uname rid now).1.prot.cb.failures =
      s.prot.cb.failures + 1 := by
  rw [handleWebSocket_at_capacity_closed s u uname rid now hcap hsd hrl hcc hcb]
  refine ⟨rfl, rfl, ?_, rfl, rfl⟩
  rw [show ({ s with
       roomId := rid,
       prot := { s.prot with
         rl := (rlIsAllowed 200 60000 s.prot.rl u now).1,
         cm := { s.prot.cm with
                 requestCount := s.prot.cm.requestCount + 1,
                 lastRequestTime := now },
         cb := { failures := s.prot.cb.failures + 1, lastFailureTime := now,
                 status := if s.prot.cb.failures + 1 ≥ 10 then CBStatus.opn
                           else CBStatus.closed } } } : RoomState).prot.rl =
    (rlIsAllowed 200 60000 s.prot.rl u now).1 from rfl]
  rw [rlIsAllowed_true_update 200 60000 s.prot.rl u now hrl]
  exact alGet_alSet_self _ _ _

/-- Witness for the amended C2 at the concrete full room. -/
theorem c2_amended_witness :
    c2State.sessions.length ≥ c2State.maxCapacity ∧
    ((handleWebSocket c2State "u2" "bob" "r" 5).2 = Except.error ChatError.roomAtCapacity ∧
     (handleWebSocket c2State "u2" "bob" "r" 5).1.sessions = c2State.sessions ∧
     alGet (handleWebSocket c2State "u2" "bob" "r" 5).1.prot.rl "u2" =
       some ((((alGet c2State.prot.rl "u2").getD []).filter
         (fun time => time > 5 - 60000)) ++ [5]) ∧
     (handleWebSocket c2State "u2" "bob" "r" 5).1.prot.cm.requestCount =
       c2State.prot.cm.requestCount + 1 ∧
     (handleWebSocket c2State "u2" "bob" "r" 5).1.prot.cb.failures =
       c2State.prot.cb.failures + 1) :=
  ⟨by decide,
   c2_amended_protection_consulted c2State "u2" "bob" "r" 5
     (by decide) (by decide) (by decide) (by decide) (by decide)⟩

/-- C3: with threshold 3, three consecutive failing executed operations
move the breaker CLOSED to OPEN; while OPEN and within recoveryTimeout of
the last failure every execute fails fast without invoking the operation;
the first execute after recoveryTimeout has elapsed goes through HALF_OPEN,
runs the operation, and on success ends CLOSED with the failure count 0. -/
theorem c3_circuit_breaker_transitions (r t1 t2 t3 t t' : Int) (ok : Bool)
    (hb : t - t3 ≤ r) (hc : t' - t3 > r) : cbScenario r t1 t2 t3 t t' ok := by
  have hnb : ¬ (t - t3 > r) := by omega
  have h1 : cbExecFlag 3 r { failures := 0, lastFailureTime := 0, status := .closed } t1 false
      = ({ failures := 1, lastFailureTime := t1, status := .closed }, .completed false) := by
    simp [cbExecFlag, cbRunFlag]
  have h2 : cbExecFlag 3 r { failures := 1, lastFailureTime := t1, status := .closed } t2 false
      = ({ failures := 2, lastFailureTime := t2, status := .closed }, .completed false) := by
    simp [cbExecFlag, cbRunFlag]
  have h3 : cbExecFlag 3 r { failures := 2, lastFailureTime := t2, status := .closed } t3 false
      = ({ failures := 3, lastFailureTime := t3, status := .opn }, .completed false) := by
    simp [cbExecFlag, cbRunFlag]
  unfold cbScenario
  simp only [h1, h2, h3]
  refine ⟨trivial, trivial, trivial, trivial, trivial, trivial, ?_, ?_, ?_⟩
  · simp [cbExecFlag, hnb]
  · simp [cbExecFlag, hc]
  · simp [cbExecFlag, cbRunFlag, hc]

/-- Witness for C3 with recovery 60000 at concrete instants. -/
theorem c3_circuit_breaker_transitions_witness :
    ((60003 : Int) - 3 ≤ 60000) ∧ ((60004 : Int) - 3 > 60000) ∧
      cbScenario 60000 1 2 3 60003 60004 false :=
  ⟨by decide, by decide,
   c3_circuit_breaker_transitions 60000 1 2 3 60003 60004 false (by decide) (by decide)⟩

/-- C4: with cap 3 and window 1000ms, three calls for X within one window
all succeed, the fourth within the window is denied and records nothing,
a call after the window has elapsed past the recorded timestamps succeeds
again, and calls for a different identifier Y are unaffected by X's
recorded timestamps and denials. -/
theorem c4_rate_limiter_correctness (X Y : String) (t1 t2 t3 t4 t5 : Int)
    (m : List (String × List Int)) (l : List Int)
    (h12 : t1 ≤ t2) (h23 : t2 ≤ t3) (h34 : t3 ≤ t4)
    (hwin : t4 - 1000 < t1) (h5 : t3 ≤ t5 - 1000) (hXY : Y ≠ X) :
    rlScenario X Y t1 t2 t3 t4 t5 m l := by
  have e2 : t1 > t2 - 1000 := by omega
  have e31 : t1 > t3 - 1000 := by omega
  have e32 : t2 > t3 - 1000 := by omega
  have e41 : t1 > t4 - 1000 := by omega
  have e42 : t2 > t4 - 1000 := by omega
  have e43 : t3 > t4 - 1000 := by omega
  have n51 : ¬ (t1 > t5 - 1000) := by omega
  have n52 : ¬ (t2 > t5 - 1000) := by omega
  have n53 : ¬ (t3 > t5 - 1000) := by omega
  have hgetY : alGet (alSet m X l) Y = alGet m Y := alGet_alSet_other m X Y l hXY
  have k1 : rlIsAllowed 3 1000 [] X t1 = ([(X, [t1])], true) := by
    simp [rlIsAllowed, alGet, alSet]
  have k2 : rlIsAllowed 3 1000 [(X, [t1])] X t2 = ([(X, [t1, t2])], true) := by
    simp [rlIsAllowed, alGet, alSet, e2]
  have k3 : rlIsAllowed 3 1000 [(X, [t1, t2])] X t3 = ([(X, [t1, t2, t3])], true) := by
    simp [rlIsAllowed, alGet, alSet, e31, e32]
  have k4 : rlIsAllowed 3 1000 [(X, [t1, t2, t3])] X t4 = ([(X, [t1, t2, t3])], false) := by
    simp [rlIsAllowed, alGet, alSet, e41, e42, e43]
  have k5 : rlIsAllowed 3 1000 [(X, [t1, t2, t3])] X t5 = ([(X, [t5])], true) := by
    simp [rlIsAllowed, alGet, alSet, n51, n52, n53]
  unfold rlScenario
  simp only [k1, k2, k3, k4, k5]
  refine ⟨trivial, trivial, trivial, trivial, trivial, trivial, ?_, ?_⟩
  · simp only [rlIsAllowed, hgetY]
    split <;> rfl
  · simp only [rlIsAllowed, hgetY]
    split
    · exact hgetY
    · rw [alGet_alSet_self, alGet_alSet_self]

/-- Witness for C4 at concrete identifiers, times and maps. -/
theorem c4_rate_limiter_correctness_witness :
    ((0 : Int) ≤ 100) ∧ ((100 : Int) ≤ 200) ∧ ((200 : Int) ≤ 300) ∧
    ((300 : Int) - 1000 < 0) ∧ ((200 : Int) ≤ 1200 - 1000) ∧ ("y" ≠ "x") ∧
    rlScenario "x" "y" 0 100 200 300 1200 [("z", [7])] [3, 4] :=
  ⟨by decide, by decide, by decide, by decide, by decide, by decide,
   c4_rate_limiter_correctness "x" "y" 0 100 200 300 1200 [("z", [7])] [3, 4]
     (by decide) (by decide) (by decide) (by decide) (by decide) (by decide)⟩

/-- Folding the capped push from the empty history keeps exactly the last
100 appended messages. -/
theorem foldl_appendMessageCapped (ms : List Message) :
    List.foldl appendMessageCapped [] ms = ms.drop (ms.length - 100) := by
  induction ms using List.reverseRecOn with
  | nil => rfl
  | append_singleton xs x ih =>
      have hfold : List.foldl appendMessageCapped [] (xs ++ [x])
          = appendMessageCapped (List.foldl appendMessageCapped [] xs) x := by
        simp [List.foldl_append]
      rw [hfold, ih]
      by_cases h : xs.length ≤ 99
      · have hd : xs.length - 100 = 0 := by omega
        have hd' : (xs ++ [x]).length - 100 = 0 := by simp; omega
        have hle : ¬ ((xs ++ [x]).length > 100) := by simp; omega
        rw [hd, List.drop_zero, hd', List.drop_zero]
        simp only [appendMessageCapped]
        rw [if_neg hle]
      · have hlen : 100 ≤ xs.length := by omega
        have hdlen : (xs.drop (xs.length - 100)).length = 100 := by simp; omega
        simp only [appendMessageCapped]
        have hgt : (xs.drop (xs.length - 100) ++ [x]).length > 100 := by
          simp only [List.length_append, hdlen]; simp
        rw [if_pos hgt]
        have h1 : (xs.drop (xs.length - 100) ++ [x]).length - 100 = 1 := by
          simp only [List.length_append, hdlen]; simp
        rw [h1, List.drop_append_eq_append_drop, hdlen, List.drop_drop]
        have h2 : (xs ++ [x]).length - 100 = xs.length - 100 + 1 := by simp; omega
        rw [h2, List.drop_append_eq_append_drop]
        have h3 : xs.length - 100 + 1 - xs.length = 0 := by omega
        rw [h3]

/-- C5: after appending 150 messages through the handler's capped push,
the in-memory history is exactly the 100 most recently appended messages in
their original relative order, the oldest 50 evicted. -/
theorem c5_message_history_bound (ms : List Message) (h : ms.length = 150) :
    List.foldl appendMessageCapped [] ms = ms.drop 50 ∧
    (List.foldl appendMessageCapped [] ms).length = 100 := by
  have hf := foldl_appendMessageCapped ms
  rw [h] at hf
  norm_num at hf
  exact ⟨hf, by rw [hf]; simp [h]⟩

/-- Witness for C5 at a concrete list of 150 messages. -/
theorem c5_message_history_bound_witness :
    c5msgs.length = 150 ∧
    (List.foldl appendMessageCapped [] c5msgs = c5msgs.drop 50 ∧
      (List.foldl appendMessageCapped [] c5msgs).length = 100) :=
  ⟨by simp [c5msgs], c5_message_history_bound c5msgs (by simp [c5msgs])⟩

/-- C6: the hibernation-restore path of webSocketMessage recreates a
session without clearing isHibernating, so a reachable state has
isHibernating true together with a non-empty sessions map — the invariant
claimed by the spec fails on this input. -/
theorem c6_hibernating_with_nonempty_sessions :
    (runEvents (initialRoom 0) (c6evs.take 3)).isHibernating = true ∧
    (runEvents (initialRoom 0) (c6evs.take 3)).sessions.length = 0 ∧
    (runEvents (initialRoom 0) c6evs).isHibernating = true ∧
    (runEvents (initialRoom 0) c6evs).sessions.length = 1 := by
  decide

/-- C7 counterexample: after disconnect(u) the users map no longer contains
any User record for u (handleDisconnect deletes the User together with the
Session), contradicting the claim that the User survives marked offline. -/
theorem c7_counterexample_user_deleted :
    (alGet c7Connected.users "u").isSome = true ∧
    alGet (runEvents (initialRoom 0) c7evs).users "u" = none ∧
    alGet (runEvents (initialRoom 0) c7evs).sessions "u" = none := by
  decide

/-- C7 amended: disconnect of a connected user removes both the Session and
the User from the room's maps; no offline-marked User record remains. -/
theorem c7_amended_disconnect_removes_user (s : RoomState) (u : String) (now : Int)
    (h : (alGet s.sessions u).isSome = true) :
    alGet (handleDisconnect s u now).sessions u = none ∧
    alGet (handleDisconnect s u now).users u = none := by
  simp only [handleDisconnect]
  cases hEq : alGet s.sessions u with
  | none => rw [hEq] at h; simp at h
  | some sess =>
      simp only [updateActivity, saveRoomData, saveUsers, resetHibernationTimer]
      split <;> exact ⟨alGet_alErase_self _ _, alGet_alErase_self _ _⟩

/-- Witness for the amended C7 at the concrete connected room. -/
theorem c7_amended_witness :
    (alGet c7Connected.sessions "u").isSome = true ∧
    (alGet (handleDisconnect c7Connected "u" 1000).sessions "u" = none ∧
     alGet (handleDisconnect c7Connected "u" 1000).users "u" = none) :=
  ⟨by decide, c7_amended_disconnect_removes_user c7Connected "u" 1000 (by decide)⟩

/-- C8: the alarm trims history to the last 50 and reschedules itself 24h
later, but evicts by time since connectedAt, not since last activity: the
user active 1 second ago (yet connected 8 days ago) is evicted. -/
theorem c8_alarm_evicts_recently_active_user :
    ((alGet c8State.users "alice").map
      (fun usr => c8Now - usr.lastSeen ≤ 7 * 24 * 60 * 60 * 1000)) = some True ∧
    alGet (alarmRun c8State c8Now).users "alice" = none ∧
    (alarmRun c8State c8Now).messages = c8State.messages.drop 10 ∧
    (alarmRun c8State c8Now).messages.length = 50 ∧
    (alarmRun c8State c8Now).storage.alarm = some (c8Now + 24 * 60 * 60 * 1000) := by
  refine ⟨by simp [c8State, alGet, c8Now], by decide, by decide, by decide, by decide⟩

/-- C9: a second startTyping while the user is already typing is a no-op
(handleTypingStart returns early on user.isTyping), so the auto-stop timer
is not re-armed: it still fires 3 seconds after the first call and the user
is no longer typing at t + 4s, contrary to the claim. -/
theorem c9_typing_timer_not_rearmed :
    ((alGet (runEvents (initialRoom 0) (c9evs.take 2)).users "u").map
      (fun usr => (usr.isTyping, usr.typingDeadline))) = some (true, some 3000) ∧
    ((alGet (runEvents (initialRoom 0) (c9evs.take 3)).users "u").map
      (fun usr => (usr.isTyping, usr.typingDeadline))) = some (true, some 3000) ∧
    ((alGet (runEvents (initialRoom 0) c9evs).users "u").map
      (fun usr => (usr.isTyping, usr.typingDeadline))) = some (false, none) := by
  decide

/-! ## C10: the shared per-room circuit breaker -/

theorem updateUserActivity_prot (s : RoomState) (u : String) (now : Int) :
    (updateUserActivity s u now).prot = s.prot := by
  simp only [updateUserActivity]
  split
  · rfl
  · split <;> rfl

theorem updateUserActivity_mrl (s : RoomState) (u : String) (now : Int) :
    (updateUserActivity s u now).messageRateLimits = s.messageRateLimits := by
  simp only [updateUserActivity]
  split
  · rfl
  · split <;> rfl

/-- Breaker run of an operation that throws, starting CLOSED: the failure
is counted and the breaker opens exactly at the threshold of 10. -/
theorem roomCbRun_op_error_closed (t : RoomState) (now : Int) (op : RoomOp) (e : ChatError)
    (hcb : t.prot.cb.status = CBStatus.closed)
    (hop : (op t).2 = Except.error e ∧ (op t).1.prot = t.prot) :
    (roomCbRun t now op).2 = Except.error e ∧
    (roomCbRun t now op).1.prot.cb =
      { failures := t.prot.cb.failures + 1, lastFailureTime := now,
        status := if t.prot.cb.failures + 1 ≥ 10 then CBStatus.opn
                  else CBStatus.closed } := by
  obtain ⟨he, hp⟩ := hop
  rcases hEq : op t with ⟨s', r⟩
  rw [hEq] at he hp
  simp only at he
  subst he
  simp only [roomCbRun, hEq]
  rw [hp, hcb]
  refine ⟨?_, ?_⟩ <;> first | rfl | trivial

/-- A gated operation that throws without touching the protection state,
run past the admission checks with a closed breaker: the error surfaces and
the shared breaker counts one more failure (opening at 10). -/
theorem exec_closed_op_error (s : RoomState) (u : String) (now : Int) (op : RoomOp)
    (e : ChatError)
    (hsd : s.prot.isShuttingDown = false)
    (hrl : (rlIsAllowed 200 60000 s.prot.rl u now).2 = true)
    (hcc : cmIsOverloaded s.prot.cm = false)
    (hcb : s.prot.cb.status = CBStatus.closed)
    (hop : ∀ t : RoomState, t.sessions = s.sessions → t.users = s.users →
      t.messages = s.messages → t.maxCapacity = s.maxCapacity →
      t.messageRateLimits = s.messageRateLimits →
      (op t).2 = Except.error e ∧ (op t).1.prot = t.prot) :
    (executeWithProtection s u now op).2 = Except.error e ∧
    (executeWithProtection s u now op).1.prot.cb =
      { failures := s.prot.cb.failures + 1, lastFailureTime := now,
        status := if s.prot.cb.failures + 1 ≥ 10 then CBStatus.opn
                  else CBStatus.closed } := by
  have h1 : ¬ (s.prot.cb.status = CBStatus.opn) := by simp [hcb]
  simp only [executeWithProtection, roomCbExecute, hsd, hrl, hcc, h1,
    Bool.false_eq_true, Bool.true_eq_false, if_false, ite_false, if_true, ite_true]
  exact roomCbRun_op_error_closed _ now op e hcb (hop _ rfl rfl rfl rfl rfl)

/-- The message body rejects an oversized payload before touching state. -/
theorem messageOpBody_oversize (u : String) (sz : Nat) (p : Payload) (now : Int)
    (t : RoomState) (hsz : sz > 10240) :
    messageOpBody u sz p now t = (t, Except.error ChatError.messageTooLarge) := by
  simp [messageOpBody, hsz]

/-- The message body rejects a chat message over the in-room 20-per-minute
limit after only the activity refresh, leaving protection state alone. -/
theorem messageOpBody_rate_limited (u c : String) (sz : Nat) (now : Int) (t : RoomState)
    (hsz : ¬ (sz > 10240))
    (hsess : (alGet t.sessions u).isSome = true)
    (hlim : (((alGet t.messageRateLimits u).getD []).filter
      (fun timestamp => now - timestamp < 60000)).length ≥ 20) :
    (messageOpBody u sz (Payload.chatMessage c) now t).2 =
      Except.error ChatError.inRoomRateLimit ∧
    (messageOpBody u sz (Payload.chatMessage c) now t).1.prot = t.prot := by
  obtain ⟨sess, hEq⟩ := Option.isSome_iff_exists.mp hsess
  have hlim' : (((alGet (updateUserActivity t u now).messageRateLimits u).getD []).filter
      (fun timestamp => now - timestamp < 60000)).length ≥ 20 := by
    rw [updateUserActivity_mrl]; exact hlim
  have hrlr : isMessageRateLimited (updateUserActivity t u now) u now =
      (updateUserActivity t u now, true) := by
    simp [isMessageRateLimited, hlim']
  simp only [messageOpBody, hEq, hrlr, if_neg hsz]
  simp [updateUserActivity_prot]

/-- Exact results of the gate's denial branches. -/
theorem exec_shutdown_eq (s : RoomState) (u : String) (now : Int) (op : RoomOp)
    (hsd : s.prot.isShuttingDown = true) :
    executeWithProtection s u now op = (s, Except.error ChatError.serviceShuttingDown) := by
  simp [executeWithProtection, hsd]

theorem exec_rl_denied_eq (s : RoomState) (u : String) (now : Int) (op : RoomOp)
    (hsd : s.prot.isShuttingDown = false)
    (hrl : (rlIsAllowed 200 60000 s.prot.rl u now).2 = false) :
    executeWithProtection s u now op =
      ({ s with prot := { s.prot with rl := (rlIsAllowed 200 60000 s.prot.rl u now).1 } },
       Except.error ChatError.rateLimitExceeded) := by
  simp [executeWithProtection, hsd, hrl]

theorem exec_overloaded_eq (s : RoomState) (u : String) (now : Int) (op : RoomOp)
    (hsd : s.prot.isShuttingDown = false)
    (hrl : (rlIsAllowed 200 60000 s.prot.rl u now).2 = true)
    (hcc : cmIsOverloaded s.prot.cm = true) :
    executeWithProtection s u now op =
      ({ s with prot := { s.prot with rl := (rlIsAllowed 200 60000 s.prot.rl u now).1 } },
       Except.error ChatError.tooManyConnections) := by
  simp [executeWithProtection, hsd, hrl, hcc]

theorem exec_circuit_open_eq (s : RoomState) (u : String) (now : Int) (op : RoomOp)
    (hsd : s.prot.isShuttingDown = false)
    (hrl : (rlIsAllowed 200 60000 s.prot.rl u now).2 = true)
    (hcc : cmIsOverloaded s.prot.cm = false)
    (hcb : s.prot.cb.status = CBStatus.opn)
    (ht : ¬ (now - s.prot.cb.lastFailureTime > 60000)) :
    executeWithProtection s u now op =
      ({ s with prot := { s.prot with
           rl := (rlIsAllowed 200 60000 s.prot.rl u now).1,
           cm := { s.prot.cm with
                   requestCount := s.prot.cm.requestCount + 1,
                   lastRequestTime := now } } },
       Except.error ChatError.circuitOpen) := by
  simp [executeWithProtection, roomCbExecute, hsd, hrl, hcc, hcb, ht]

/-- While the breaker is OPEN within the 60s window, every gated operation
from every identifier fails without being invoked; the breaker state is
untouched, and if the gate otherwise admits, the error is circuit-open. -/
theorem exec_open_blocked (s : RoomState) (u : String) (now : Int) (op : RoomOp)
    (hcb : s.prot.cb.status = CBStatus.opn)
    (ht : ¬ (now - s.prot.cb.lastFailureTime > 60000)) :
    (∃ e, (executeWithProtection s u now op).2 = Except.error e) ∧
    (executeWithProtection s u now op).1.sessions = s.sessions ∧
    (executeWithProtection s u now op).1.users = s.users ∧
    (executeWithProtection s u now op).1.messages = s.messages ∧
    (executeWithProtection s u now op).1.isHibernating = s.isHibernating ∧
    (executeWithProtection s u now op).1.storage = s.storage ∧
    (executeWithProtection s u now op).1.prot.cb = s.prot.cb ∧
    (s.prot.isShuttingDown = false →
      (rlIsAllowed 200 60000 s.prot.rl u now).2 = true →
      cmIsOverloaded s.prot.cm = false →
      (executeWithProtection s u now op).2 = Except.error ChatError.circuitOpen) := by
  by_cases hsd : s.prot.isShuttingDown = true
  · rw [exec_shutdown_eq s u now op hsd]
    exact ⟨⟨_, rfl⟩, rfl, rfl, rfl, rfl, rfl, rfl,
      fun hsd2 _ _ => by rw [hsd2] at hsd; cases hsd⟩
  · have hsd' : s.prot.isShuttingDown = false := by simpa using hsd
    by_cases hrl : (rlIsAllowed 200 60000 s.prot.rl u now).2 = true
    · by_cases hcc : cmIsOverloaded s.prot.cm = true
      · rw [exec_overloaded_eq s u now op hsd' hrl hcc]
        exact ⟨⟨_, rfl⟩, rfl, rfl, rfl, rfl, rfl, rfl,
          fun _ _ hcc2 => by rw [hcc2] at hcc; cases hcc⟩
      · have hcc' : cmIsOverloaded s.prot.cm = false := by simpa using hcc
        rw [exec_circuit_open_eq s u now op hsd' hrl hcc' hcb ht]
        exact ⟨⟨_, rfl⟩, rfl, rfl, rfl, rfl, rfl, rfl, fun _ _ _ => rfl⟩
    · have hrl' : (rlIsAllowed 200 60000 s.prot.rl u now).2 = false := by simpa using hrl
      rw [exec_rl_denied_eq s u now op hsd' hrl']
      exact ⟨⟨_, rfl⟩, rfl, rfl, rfl, rfl, rfl, rfl,
        fun _ hrl2 _ => absurd hrl2 hrl⟩

/-- C10: one room-level breaker (threshold 10, recovery 60s) is shared by
every identifier.  A gated connect rejected for capacity, a payload
rejected as too large, and a message over the in-room 20-per-minute limit
each increment the shared failure count (opening the breaker at 10
accumulated failures with that failure's time recorded); and while OPEN
within 60s of the last failure, every gated operation from every user fails
without the operation being invoked, with the circuit-open error whenever
the gate otherwise admits. -/
theorem c10_shared_circuit_breaker
    (s1 : RoomState) (u1 n1 r1 : String) (t1 : Int)
    (s2 : RoomState) (u2 : String) (sz2 : Nat) (p2 : Payload) (t2 : Int)
    (s3 : RoomState) (u3 c3 : String) (sz3 : Nat) (t3 : Int)
    (s4 : RoomState) (u4 : String) (t4 : Int) (op4 : RoomOp)
    (h1cap : s1.sessions.length ≥ s1.maxCapacity)
    (h1sd : s1.prot.isShuttingDown = false)
    (h1rl : (rlIsAllowed 200 60000 s1.prot.rl u1 t1).2 = true)
    (h1cc : cmIsOverloaded s1.prot.cm = false)
    (h1cb : s1.prot.cb.status = CBStatus.closed)
    (h2sz : sz2 > 10240)
    (h2sd : s2.prot.isShuttingDown = false)
    (h2rl : (rlIsAllowed 200 60000 s2.prot.rl u2 t2).2 = true)
    (h2cc : cmIsOverloaded s2.prot.cm = false)
    (h2cb : s2.prot.cb.status = CBStatus.closed)
    (h3sz : ¬ (sz3 > 10240))
    (h3sess : (alGet s3.sessions u3).isSome = true)
    (h3lim : (((alGet s3.messageRateLimits u3).getD []).filter
      (fun timestamp => t3 - timestamp < 60000)).length ≥ 20)
    (h3sd : s3.prot.isShuttingDown = false)
    (h3rl : (rlIsAllowed 200 60000 s3.prot.rl u3 t3).2 = true)
    (h3cc : cmIsOverloaded s3.prot.cm = false)
    (h3cb : s3.prot.cb.status = CBStatus.closed)
    (h4cb : s4.prot.cb.status = CBStatus.opn)
    (h4t : ¬ (t4 - s4.prot.cb.lastFailureTime > 60000)) :
    ((handleWebSocket s1 u1 n1 r1 t1).2 = Except.error ChatError.roomAtCapacity ∧
     (handleWebSocket s1 u1 n1 r1 t1).1.prot.cb =
       { failures := s1.prot.cb.failures + 1, lastFailureTime := t1,
         status := if s1.prot.cb.failures + 1 ≥ 10 then CBStatus.opn
                   else CBStatus.closed }) ∧
    ((handleMessage s2 u2 sz2 p2 t2).2 = Except.error ChatError.messageTooLarge ∧
     (handleMessage s2 u2 sz2 p2 t2).1.prot.cb =
       { failures := s2.prot.cb.failures + 1, lastFailureTime := t2,
         status := if s2.prot.cb.failures + 1 ≥ 10 then CBStatus.opn
                   else CBStatus.closed }) ∧
    ((handleMessage s3 u3 sz3 (Payload.chatMessage c3) t3).2 =
       Except.error ChatError.inRoomRateLimit ∧
     (handleMessage s3 u3 sz3 (Payload.chatMessage c3) t3).1.prot.cb =
       { failures := s3.prot.cb.failures + 1, lastFailureTime := t3,
         status := if s3.prot.cb.failures + 1 ≥ 10 then CBStatus.opn
                   else CBStatus.closed }) ∧
    ((∃ e, (executeWithProtection s4 u4 t4 op4).2 = Except.error e) ∧
     (executeWithProtection s4 u4 t4 op4).1.sessions = s4.sessions ∧
     (executeWithProtection s4 u4 t4 op4).1.users = s4.users ∧
     (executeWithProtection s4 u4 t4 op4).1.messages = s4.messages ∧
     (executeWithProtection s4 u4 t4 op4).1.prot.cb = s4.prot.cb ∧
     (s4.prot.isShuttingDown = false →
       (rlIsAllowed 200 60000 s4.prot.rl u4 t4).2 = true →
       cmIsOverloaded s4.prot.cm = false →
       (executeWithProtection s4 u4 t4 op4).2 = Except.error ChatError.circuitOpen)) := by
  refine ⟨?_, ?_, ?_, ?_⟩
  · exact exec_closed_op_error s1 u1 t1 _ ChatError.roomAtCapacity h1sd h1rl h1cc h1cb
      (fun t hs _ _ hm _ =>
        ⟨by rw [connectOpBody_at_capacity u1 n1 r1 t1 t (by rw [hs, hm]; exact h1cap)],
         by rw [connectOpBody_at_capacity u1 n1 r1 t1 t (by rw [hs, hm]; exact h1cap)]⟩)
  · exact exec_closed_op_error s2 u2 t2 _ ChatError.messageTooLarge h2sd h2rl h2cc h2cb
      (fun t _ _ _ _ _ =>
        ⟨by rw [messageOpBody_oversize u2 sz2 p2 t2 t h2sz],
         by rw [messageOpBody_oversize u2 sz2 p2 t2 t h2sz]⟩)
  · exact exec_closed_op_error s3 u3 t3 _ ChatError.inRoomRateLimit h3sd h3rl h3cc h3cb
      (fun t hs _ _ _ hm =>
        (messageOpBody_rate_limited u3 c3 sz3 t3 t h3sz
          (by rw [hs]; exact h3sess) (by rw [hm]; exact h3lim)))
  · have hb := exec_open_blocked s4 u4 t4 op4 h4cb h4t
    exact ⟨hb.1, hb.2.1, hb.2.2.1, hb.2.2.2.1, hb.2.2.2.2.2.2.1, hb.2.2.2.2.2.2.2⟩

/-- Witness for C10 at concrete rooms: a capacity rejection, an oversized
payload, an over-limit message, and a fail-fast call while OPEN. -/
theorem c10_shared_circuit_breaker_witness :
    ((handleWebSocket c10CapState "a" "alice" "r" 1).2 =
       Except.error ChatError.roomAtCapacity ∧
     (handleWebSocket c10CapState "a" "alice" "r" 1).1.prot.cb =
       { failures := 1, lastFailureTime := 1, status := CBStatus.closed }) ∧
    ((handleMessage (initialRoom 0) "b" 20000 Payload.ping 2).2 =
       Except.error ChatError.messageTooLarge ∧
     (handleMessage (initialRoom 0) "b" 20000 Payload.ping 2).1.prot.cb =
       { failures := 1, lastFailureTime := 2, status := CBStatus.closed }) ∧
    ((handleMessage c10LimState "u" 10 (Payload.chatMessage "hi") 3).2 =
       Except.error ChatError.inRoomRateLimit ∧
     (handleMessage c10LimState "u" 10 (Payload.chatMessage "hi") 3).1.prot.cb =
       { failures := 1, lastFailureTime := 3, status := CBStatus.closed }) ∧
    ((∃ e, (executeWithProtection c10OpenState "c" 1000 c10WipeOp).2 = Except.error e) ∧
     (executeWithProtection c10OpenState "c" 1000 c10WipeOp).1.messages =
       c10OpenState.messages ∧
     (executeWithProtection c10OpenState "c" 1000 c10WipeOp).1.prot.cb =
       c10OpenState.prot.cb ∧
     (executeWithProtection c10OpenState "c" 1000 c10WipeOp).2 =
       Except.error ChatError.circuitOpen) := by
  have h := c10_shared_circuit_breaker
    c10CapState "a" "alice" "r" 1
    (initialRoom 0) "b" 20000 Payload.ping 2
    c10LimState "u" "hi" 10 3
    c10OpenState "c" 1000 c10WipeOp
    (by decide) (by decide) (by decide) (by decide) (by decide)
    (by decide) (by decide) (by decide) (by decide) (by decide)
    (by decide) (by decide) (by decide) (by decide) (by decide) (by decide) (by decide)
    (by decide) (by decide)
  exact ⟨⟨h.1.1, by rw [h.1.2]; decide⟩, ⟨h.2.1.1, by rw [h.2.1.2]; decide⟩,
    ⟨h.2.2.1.1, by rw [h.2.2.1.2]; decide⟩,
    ⟨h.2.2.2.1, h.2.2.2.2.2.2.1, h.2.2.2.2.2.2.2.1,
     h.2.2.2.2.2.2.2.2 (by decide) (by decide) (by decide)⟩⟩

end DOChat
